import Mathlib

/-!
Shallow embedding of the aerospike typed-record access layer
(`src/Database.go`) and the collaborator primitives its spec assumes
(`get`, `put`, `delete`, `exists`, `batchGet`, `scanAll`, `truncate`),
together with theorems settling the frozen claims about it.

The `Database` methods are translated line-by-line from `Database.go`.
The external aerospike client is not part of this repository's sources,
so its primitives are modelled from the spec (doc comments marked
`Modelled from the spec:`): records are flat field-name-to-value maps,
writes are full replace (the source configures
`RecordExistsAction = REPLACE`), key construction validates a non-empty
id, and the codec maps tagged struct fields to storage field names.
-/

namespace Aerospike

/-- A storage field value: one of the flat value kinds a record may hold. -/
inductive Value where
  | str (s : String)
  | intv (n : Int)
  | boolv (b : Bool)
  deriving DecidableEq, Repr

/-- One declared field of a structured type: its Go field name, its
optional storage tag (the json tag the source installs via
`as.SetAerospikeTag("json")`), and its zero value. -/
structure FieldDesc where
  fname : String
  tag : Option String
  zero : Value
  deriving DecidableEq, Repr

/-- Description of a structured type: its declared name (which becomes
the table name at registration, `reflect.Type.Name()`) and its fields. -/
structure TypeDescriptor where
  name : String
  fields : List FieldDesc
  deriving DecidableEq, Repr

/-- A storage key: the (namespace, table, id) triple built by `as.NewKey`. -/
structure Key where
  «namespace» : String
  table : String
  id : String
  deriving DecidableEq, Repr

/-- A stored record: a flat mapping from storage field name to value
(`as.BinMap`), represented as an association list without duplicate keys. -/
abbrev Record := List (String × Value)

/-- A typed in-memory object: its type descriptor plus the values of its
fields, keyed by Go field name. -/
structure TypedObject where
  type : TypeDescriptor
  values : List (String × Value)
  deriving DecidableEq, Repr

/-- Association list lookup: the first binding of the key, if any. -/
def alookup {κ α : Type} [DecidableEq κ] : List (κ × α) → κ → Option α
  | [], _ => none
  | (k', v) :: rest, k => if k' = k then some v else alookup rest k

/-- Association list removal of every binding of the key (Go `delete(m, k)`
on a map that holds each key at most once). -/
def aremove {κ α : Type} [DecidableEq κ] : List (κ × α) → κ → List (κ × α)
  | [], _ => []
  | (k', v) :: rest, k =>
    if k' = k then aremove rest k else (k', v) :: aremove rest k

/-- Association list insertion with map semantics: the new binding
replaces any previous binding of the key (Go `m[k] = v`). -/
def ainsert {κ α : Type} [DecidableEq κ] (m : List (κ × α)) (k : κ) (v : α) :
    List (κ × α) :=
  (k, v) :: aremove m k

/-- Allocate a zero-valued instance of a type (Go `reflect.New(t)`):
every declared field carries its zero value. -/
def TypedObject.new (t : TypeDescriptor) : TypedObject :=
  ⟨t, t.fields.map (fun f => (f.fname, f.zero))⟩

/-- The value an object holds for one of its declared fields (the zero
value when the field is unset). -/
def TypedObject.fieldVal (o : TypedObject) (f : FieldDesc) : Value :=
  (alookup o.values f.fname).getD f.zero

/-- Modelled from the spec: RecordCodec.Encode walks the type's declared
fields, emitting one record field per tagged field under its tag-derived
storage name; fields without a storage tag are omitted. Encoding is total. -/
def encode (o : TypedObject) : Record :=
  o.type.fields.filterMap (fun f =>
    match f.tag with
    | some tg => some (tg, (alookup o.values f.fname).getD f.zero)
    | none => none)

/-- Modelled from the spec: RecordCodec.Decode populates the target's
fields from matching record fields by storage name; fields present in the
record but absent from the type are ignored; fields absent from the record
leave the target's value in place. -/
def decode (r : Record) (target : TypedObject) : TypedObject :=
  ⟨target.type,
   target.type.fields.map (fun f =>
     (f.fname,
      match f.tag with
      | some tg =>
        match alookup r tg with
        | some v => v
        | none => (alookup target.values f.fname).getD f.zero
      | none => (alookup target.values f.fname).getD f.zero))⟩

/-- A Go `reflect.Type` as far as this layer inspects it: either a
structured (struct) type described by a `TypeDescriptor`, or a channel
type with an element type. -/
inductive ReflectType where
  | structT (td : TypeDescriptor)
  | chanT (elem : ReflectType)
  deriving DecidableEq, Repr

/-- Model of Go `reflect.MakeChan`: it returns a channel only when its
argument is a channel type; on a struct type or a nil type (a missing
registry entry) it panics, modelled as `none`. -/
def reflectMakeChan : Option ReflectType → Option ReflectType
  | some (ReflectType.chanT e) => some (ReflectType.chanT e)
  | some (ReflectType.structT _) => none
  | none => none

/-- The external key-value store's state: the stored records keyed by
`Key`, plus a count of collaborator (network) calls made so far. -/
structure Store where
  data : List (Key × Record)
  calls : Nat
  deriving DecidableEq, Repr

/-- The store with one more collaborator call recorded. -/
def Store.bump (s : Store) : Store :=
  ⟨s.data, s.calls + 1⟩

/-- The errors of this layer's taxonomy. `keyConstructionError` is a key
builder failure, `typeNotRegistered` the Go
`errors.New("Data type has not been defined for table " + table)`,
`recordNotFound` GetMap's own `errors.New("Record not found")`,
`storeNotFound` the collaborator's key-not-found failure, and
`storeError` any other opaque collaborator failure. -/
inductive DBError where
  | keyConstructionError
  | typeNotRegistered (table : String)
  | recordNotFound
  | storeNotFound
  | storeError
  deriving DecidableEq, Repr

/-- Whether an error is the unregistered-table error (for any table). -/
def DBError.isTypeNotRegistered : DBError → Bool
  | .typeNotRegistered _ => true
  | _ => false

/-- Modelled from the spec: KeyBuilder.Build validates that `id` is
non-empty and well-formed for the collaborator's key encoding, failing
fast with a KeyConstructionError before any network call (`as.NewKey`). -/
def NewKey (ns table id : String) : Except DBError Key :=
  if id = "" then Except.error DBError.keyConstructionError
  else Except.ok ⟨ns, table, id⟩

/-- Modelled from the spec: collaborator `get(key) -> record|absent`;
absence is signalled by an absent record, not an error (`client.Get`). -/
def clientGet (s : Store) (k : Key) : Store × Option Record × Option DBError :=
  (s.bump, alookup s.data k, none)

/-- Modelled from the spec: the collaborator's typed read decodes the
stored record into the caller's target object; an absent record is a
not-found failure that leaves the target untouched (`client.GetObject`). -/
def clientGetObject (s : Store) (k : Key) (target : TypedObject) :
    Store × TypedObject × Option DBError :=
  match alookup s.data k with
  | some r => (s.bump, decode r target, none)
  | none => (s.bump, target, some DBError.storeNotFound)

/-- Modelled from the spec: collaborator `put(key, record)` is a full
replace — the stored record becomes exactly the object's encoding,
dropping every previously stored field (the source configures
`RecordExistsAction = REPLACE` on `client.DefaultWritePolicy`). -/
def clientPutObject (s : Store) (k : Key) (obj : TypedObject) :
    Store × Option DBError :=
  (⟨ainsert s.data k (encode obj), s.calls + 1⟩, none)

/-- Modelled from the spec: collaborator `delete(key) -> existed`
(`client.Delete`); deleting an absent key is not an error. -/
def clientDelete (s : Store) (k : Key) : Store × Bool × Option DBError :=
  (⟨aremove s.data k, s.calls + 1⟩, (alookup s.data k).isSome, none)

/-- Modelled from the spec: collaborator `exists(key) -> bool`
(`client.Exists`). -/
def clientExists (s : Store) (k : Key) : Store × Bool × Option DBError :=
  (s.bump, (alookup s.data k).isSome, none)

/-- Modelled from the spec: collaborator `batchGet(keys) -> records
aligned by index` (`client.BatchGetObjects`): each target is populated
from the record of its key when present and left zero when absent; a nil
key (a discarded key-construction failure) is rejected by the
collaborator at call time as an opaque store failure. -/
def clientBatchGetObjects (s : Store) (keys : List (Option Key))
    (targets : List TypedObject) : Store × Except DBError (List TypedObject) :=
  if keys.all Option.isSome then
    (s.bump, Except.ok ((keys.zip targets).map (fun p =>
      match p.1 with
      | some k =>
        match alookup s.data k with
        | some r => decode r p.2
        | none => p.2
      | none => p.2)))
  else (s.bump, Except.error DBError.storeError)

/-- Modelled from the spec: collaborator `scanAll(namespace, table)`
streams every record of the table, decoded into fresh instances of the
sink's element type (`client.ScanAllObjects`). -/
def clientScanAllObjects (s : Store) (ns table : String)
    (elemType : TypeDescriptor) : Store × List TypedObject × Option DBError :=
  (s.bump,
   s.data.filterMap (fun p =>
     if p.1.«namespace» = ns ∧ p.1.table = table then
       some (decode p.2 (TypedObject.new elemType))
     else none),
   none)

/-- Modelled from the spec: collaborator `truncate(namespace, table)`
removes every record of the table (`client.Truncate`). -/
def clientTruncate (s : Store) (ns table : String) : Store × Option DBError :=
  (⟨s.data.filter (fun p => decide (¬(p.1.«namespace» = ns ∧ p.1.table = table))),
    s.calls + 1⟩,
   none)

/-- The Database struct: the fixed namespace and the table-name-to-type
registry built at construction. The collaborator client itself is the
`Store` state threaded through each operation. -/
structure Database where
  «namespace» : String
  types : List (String × TypeDescriptor)
  deriving DecidableEq, Repr

/-- Registration loop of `NewDatabase`: for each example type, store it
under its own declared name (`tableTypes[typeInfo.Name()] = typeInfo`);
a repeated name silently overwrites the earlier entry. -/
def registerTables (tables : List TypeDescriptor) :
    List (String × TypeDescriptor) :=
  tables.foldl (fun m td => ainsert m td.name td) []

/-- NewDatabase builds the registry from the example types and connects
the collaborator client; a connection failure panics (`none`) instead of
returning an error (`panic(err)` in the source). `connectOk` models
whether the collaborator connection succeeds. -/
def NewDatabase (connectOk : Bool) (ns : String)
    (tables : List TypeDescriptor) : Option Database :=
  if connectOk then some ⟨ns, registerTables tables⟩ else none

/-- The result of one Database operation: the (unchanged or changed)
database receiver, the collaborator store state after the call, and the
operation's Go return values. -/
structure Out (α : Type) where
  db : Database
  store : Store
  val : α
  deriving DecidableEq, Repr

/-- Get retrieves an object from the table: build the key, require the
table's registered type, allocate a fresh zero instance and have the
collaborator populate it; the instance is returned even alongside an
error. -/
def Database.Get (db : Database) (s : Store) (table id : String) :
    Out (Option TypedObject × Option DBError) :=
  match NewKey db.«namespace» table id with
  | Except.error e => ⟨db, s, (none, some e)⟩
  | Except.ok pk =>
    match alookup db.types table with
    | none => ⟨db, s, (none, some (DBError.typeNotRegistered table))⟩
    | some t =>
      let r := clientGetObject s pk (TypedObject.new t)
      ⟨db, r.1, (some r.2.1, r.2.2)⟩

/-- Set writes an object's data for the given id, erasing old fields:
build the key and hand the object to the collaborator's full-replace
write. No registration is consulted. -/
def Database.Set (db : Database) (s : Store) (table id : String)
    (obj : TypedObject) : Out (Option DBError) :=
  match NewKey db.«namespace» table id with
  | Except.error e => ⟨db, s, some e⟩
  | Except.ok pk =>
    let r := clientPutObject s pk obj
    ⟨db, r.1, r.2⟩

/-- Delete deletes an object from the database and returns whether it
existed. -/
def Database.Delete (db : Database) (s : Store) (table id : String) :
    Out (Bool × Option DBError) :=
  match NewKey db.«namespace» table id with
  | Except.error e => ⟨db, s, (false, some e)⟩
  | Except.ok pk =>
    let r := clientDelete s pk
    ⟨db, r.1, (r.2.1, r.2.2)⟩

/-- Exists tells whether the given record exists. -/
def Database.Exists (db : Database) (s : Store) (table id : String) :
    Out (Bool × Option DBError) :=
  match NewKey db.«namespace» table id with
  | Except.error e => ⟨db, s, (false, some e)⟩
  | Except.ok pk =>
    let r := clientExists s pk
    ⟨db, r.1, (r.2.1, r.2.2)⟩

/-- Scan streams all objects of the table into the caller's sink, whose
element type drives the decoding. -/
def Database.Scan (db : Database) (s : Store) (table : String)
    (elemType : TypeDescriptor) : Out (List TypedObject × Option DBError) :=
  let r := clientScanAllObjects s db.«namespace» table elemType
  ⟨db, r.1, (r.2.1, r.2.2)⟩

/-- All makes a channel with `reflect.MakeChan(db.types[table], 0)` and
scans into it. The registry holds struct types (and a missing table
yields a nil type), so `reflect.MakeChan` panics — modelled as `none`;
the channel-typed branch mirrors the source's intended scan. -/
def Database.All (db : Database) (s : Store) (table : String) :
    Option (Out (ReflectType × Option DBError)) :=
  match reflectMakeChan ((alookup db.types table).map ReflectType.structT) with
  | none => none
  | some ch =>
    let r := db.Scan s table ((alookup db.types table).getD ⟨"", []⟩)
    some ⟨r.db, r.store, (ch, r.val.2)⟩

/-- GetObject retrieves data from the table into the caller-provided
object: its own shape drives the decoding and no registration is
consulted. The populated target is part of the result. -/
def Database.GetObject (db : Database) (s : Store) (table id : String)
    (obj : TypedObject) : Out (TypedObject × Option DBError) :=
  match NewKey db.«namespace» table id with
  | Except.error e => ⟨db, s, (obj, some e)⟩
  | Except.ok pk =>
    let r := clientGetObject s pk obj
    ⟨db, r.1, (r.2.1, r.2.2)⟩

/-- GetMap retrieves the raw record as a field-name-to-value mapping; an
absent record is its own "Record not found" error. -/
def Database.GetMap (db : Database) (s : Store) (table id : String) :
    Out (Option Record × Option DBError) :=
  match NewKey db.«namespace» table id with
  | Except.error e => ⟨db, s, (none, some e)⟩
  | Except.ok pk =>
    let r := clientGet s pk
    match r.2.2 with
    | some e => ⟨db, r.1, (none, some e)⟩
    | none =>
      match r.2.1 with
      | none => ⟨db, r.1, (none, some DBError.recordNotFound)⟩
      | some rec => ⟨db, r.1, (some rec, none)⟩

/-- GetMany performs a batched Get for every id: it requires the table's
registered type, returns an empty result with no collaborator call for an
empty id list, builds one key per id discarding key-construction errors
(`keys[i], _ = as.NewKey(...)` in the source), allocates one zero
instance per id, and hands keys and instances to the collaborator's batch
read; a batch failure fails the whole call. -/
def Database.GetMany (db : Database) (s : Store) (table : String)
    (idList : List String) : Out (Option (List TypedObject) × Option DBError) :=
  match alookup db.types table with
  | none => ⟨db, s, (none, some (DBError.typeNotRegistered table))⟩
  | some t =>
    if idList.length = 0 then ⟨db, s, (some [], none)⟩
    else
      let keys := idList.map (fun id => (NewKey db.«namespace» table id).toOption)
      let targets := List.replicate idList.length (TypedObject.new t)
      let r := clientBatchGetObjects s keys targets
      match r.2 with
      | Except.error e => ⟨db, r.1, (none, some e)⟩
      | Except.ok objs => ⟨db, r.1, (some objs, none)⟩

/-- DeleteTable deletes all content from the given table via the
collaborator's truncate. -/
def Database.DeleteTable (db : Database) (s : Store) (table : String) :
    Out (Option DBError) :=
  let r := clientTruncate s db.«namespace» table
  ⟨db, r.1, r.2⟩

/-- Namespace returns the name of the namespace; a pure registry read,
no collaborator call. -/
def Database.Namespace (db : Database) (s : Store) : Out String :=
  ⟨db, s, db.«namespace»⟩

/-- Type returns the type registered for the table (nil when absent); a
pure registry read, no collaborator call. -/
def Database.«Type» (db : Database) (s : Store) (table : String) :
    Out (Option TypeDescriptor) :=
  ⟨db, s, alookup db.types table⟩

/-- Types returns the whole table-to-type registry; a pure registry read,
no collaborator call. -/
def Database.Types (db : Database) (s : Store) :
    Out (List (String × TypeDescriptor)) :=
  ⟨db, s, db.types⟩

/-- The object the batch read of GetMany produces for a single id: the
decoded record of its key when the key builds and a record is present,
otherwise the zero instance. -/
def batchItem (ns table : String) (s : Store) (t : TypeDescriptor)
    (id : String) : TypedObject :=
  match (NewKey ns table id).toOption with
  | some k =>
    match alookup s.data k with
    | some r => decode r (TypedObject.new t)
    | none => TypedObject.new t
  | none => TypedObject.new t

/-- A concrete registered type for witnesses: a user with two tagged
fields and one untagged field. -/
def userDesc : TypeDescriptor :=
  ⟨"User",
   [⟨"FirstName", some "firstName", Value.str ""⟩,
    ⟨"Age", some "age", Value.intv 0⟩,
    ⟨"Internal", none, Value.str ""⟩]⟩

/-- A second concrete registered type for witnesses. -/
def postDesc : TypeDescriptor :=
  ⟨"Post", [⟨"Title", some "title", Value.str ""⟩]⟩

/-- A concrete database with the two witness types registered. -/
def gdb : Database :=
  ⟨"game", registerTables [userDesc, postDesc]⟩

/-- The empty collaborator store. -/
def emptyStore : Store :=
  ⟨[], 0⟩

/-- A concrete user object for witnesses. -/
def annUser : TypedObject :=
  ⟨userDesc,
   [("FirstName", Value.str "Ann"), ("Age", Value.intv 7),
    ("Internal", Value.str "x")]⟩

/-- A concrete user object whose encoding has the same fields as
`annUser`'s but different values. -/
def bobUser : TypedObject :=
  ⟨userDesc, [("FirstName", Value.str "Bob")]⟩

/-- A concrete object of a one-field ad hoc type, used to exercise the
full-replace claim: its encoding omits the `age` field that `annUser`'s
encoding has. -/
def slimUser : TypedObject :=
  ⟨⟨"SlimUser", [⟨"FirstName", some "firstName", Value.str ""⟩]⟩,
   [("FirstName", Value.str "Zoe")]⟩

/-- Whether an optional error is the unregistered-table error. -/
def isNotRegErr : Option DBError → Bool
  | some e => e.isTypeNotRegistered
  | none => false

theorem newKey_ok (ns table id : String) (hid : id ≠ "") :
    NewKey ns table id = Except.ok ⟨ns, table, id⟩ := by
  simp [NewKey, hid]

theorem alookup_ainsert_self {κ α : Type} [DecidableEq κ] (m : List (κ × α))
    (k : κ) (v : α) : alookup (ainsert m k v) k = some v := by
  simp [ainsert, alookup]

theorem alookup_aremove_self {κ α : Type} [DecidableEq κ] (m : List (κ × α))
    (k : κ) : alookup (aremove m k) k = none := by
  induction m with
  | nil => rfl
  | cons p rest ih =>
    obtain ⟨k', v⟩ := p
    by_cases h : k' = k
    · simpa [aremove, h] using ih
    · simpa [aremove, h, alookup] using ih

/-- C1: writes are full replace — after two Sets to the same key, the
stored record is exactly the encoding of the second object, and a field
present in the first object's encoding but absent from the second's is
absent from the record GetMap returns. -/
theorem set_set_full_replace (db : Database) (s : Store) (table id : String)
    (o1 o2 : TypedObject) (field : String) (hid : id ≠ "")
    (h1 : (alookup (encode o1) field).isSome = true)
    (h2 : alookup (encode o2) field = none) :
    (db.GetMap (db.Set (db.Set s table id o1).store table id o2).store
        table id).val.1 = some (encode o2) ∧
    (db.GetMap (db.Set (db.Set s table id o1).store table id o2).store
        table id).val.2 = none ∧
    alookup (((db.GetMap (db.Set (db.Set s table id o1).store table id o2).store
        table id).val.1).getD []) field = none := by
  simp only [Database.Set, Database.GetMap, newKey_ok _ _ _ hid, clientPutObject,
    clientGet]
  rw [alookup_ainsert_self]
  exact ⟨rfl, rfl, h2⟩

/-- Closed instance of C1: storing `annUser` (whose encoding carries the
field `age`) and then `slimUser` (whose encoding omits it) leaves a record
equal to `slimUser`'s encoding, without the `age` field. -/
theorem set_set_full_replace_witness :
    ("123" : String) ≠ "" ∧
    (alookup (encode annUser) "age").isSome = true ∧
    alookup (encode slimUser) "age" = none ∧
    ((gdb.GetMap (gdb.Set (gdb.Set emptyStore "User" "123" annUser).store
        "User" "123" slimUser).store "User" "123").val.1 = some (encode slimUser) ∧
     (gdb.GetMap (gdb.Set (gdb.Set emptyStore "User" "123" annUser).store
        "User" "123" slimUser).store "User" "123").val.2 = none ∧
     alookup (((gdb.GetMap (gdb.Set (gdb.Set emptyStore "User" "123" annUser).store
        "User" "123" slimUser).store "User" "123").val.1).getD []) "age" = none) :=
  ⟨by decide, by decide, by decide,
   set_set_full_replace gdb emptyStore "User" "123" annUser slimUser "age"
     (by decide) (by decide) (by decide)⟩

theorem alookup_fields_map (fields : List FieldDesc) (h : FieldDesc → Value)
    (hfn : (fields.map FieldDesc.fname).Nodup) {f : FieldDesc}
    (hf : f ∈ fields) :
    alookup (fields.map (fun g => (g.fname, h g))) f.fname = some (h f) := by
  induction fields with
  | nil => cases hf
  | cons g gs ih =>
    simp only [List.map_cons, List.nodup_cons] at hfn
    rcases List.mem_cons.mp hf with hfg | hfs
    · subst hfg
      simp [alookup]
    · have hne : g.fname ≠ f.fname := by
        intro he
        exact hfn.1 (he ▸ List.mem_map_of_mem FieldDesc.fname hfs)
      simp only [List.map_cons, alookup, if_neg hne]
      exact ih hfn.2 hfs

theorem alookup_encode_fields (fields : List FieldDesc)
    (vals : List (String × Value))
    (htags : (fields.filterMap FieldDesc.tag).Nodup) {f : FieldDesc}
    {tg : String} (hf : f ∈ fields) (htg : f.tag = some tg) :
    alookup (fields.filterMap (fun g =>
      match g.tag with
      | some t => some (t, (alookup vals g.fname).getD g.zero)
      | none => none)) tg = some ((alookup vals f.fname).getD f.zero) := by
  induction fields with
  | nil => cases hf
  | cons g gs ih =>
    rcases hgt : g.tag with _ | t'
    · have hfg : f ≠ g := by
        intro he
        rw [he, hgt] at htg
        cases htg
      have hfs : f ∈ gs := (List.mem_cons.mp hf).resolve_left hfg
      simp only [List.filterMap_cons, hgt] at htags ⊢
      exact ih htags hfs
    · simp only [List.filterMap_cons, hgt, List.nodup_cons] at htags ⊢
      by_cases het : t' = tg
      · have hfg : f = g := by
          rcases List.mem_cons.mp hf with hfg | hfs
          · exact hfg
          · exfalso
            apply htags.1
            rw [het]
            exact List.mem_filterMap.mpr ⟨f, hfs, htg⟩
        subst hfg
        rw [hgt] at htg
        cases htg
        simp [alookup]
      · have hfg : f ≠ g := by
          intro he
          rw [he, hgt] at htg
          exact het (Option.some.inj htg)
        have hfs : f ∈ gs := (List.mem_cons.mp hf).resolve_left hfg
        simp only [alookup, if_neg het]
        exact ih htags.2 hfs

theorem decode_encode_fieldVal (t : TypeDescriptor) (o : TypedObject)
    (hty : o.type = t)
    (htags : (t.fields.filterMap FieldDesc.tag).Nodup)
    (hfn : (t.fields.map FieldDesc.fname).Nodup) {f : FieldDesc}
    (hf : f ∈ t.fields) {tg : String} (htg : f.tag = some tg) :
    (decode (encode o) (TypedObject.new t)).fieldVal f = o.fieldVal f := by
  unfold decode TypedObject.new TypedObject.fieldVal
  simp only
  rw [alookup_fields_map t.fields _ hfn hf, htg]
  simp only
  unfold encode
  rw [hty]
  rw [alookup_encode_fields t.fields o.values htags hf htg]
  rfl

/-- C2: round trip — on a registered table, Set followed by Get returns,
without error, the decoded stored record, and it agrees with the written
object on every field carrying a storage tag (tag and Go field names
assumed duplicate-free, as Go struct declarations guarantee). -/
theorem set_get_round_trip (db : Database) (s : Store) (table id : String)
    (t : TypeDescriptor) (o : TypedObject) (f : FieldDesc) (tg : String)
    (hid : id ≠ "") (hreg : alookup db.types table = some t)
    (hty : o.type = t)
    (htags : (t.fields.filterMap FieldDesc.tag).Nodup)
    (hfn : (t.fields.map FieldDesc.fname).Nodup)
    (hf : f ∈ t.fields) (htg : f.tag = some tg) :
    (db.Get (db.Set s table id o).store table id).val.2 = none ∧
    (db.Get (db.Set s table id o).store table id).val.1
      = some (decode (encode o) (TypedObject.new t)) ∧
    (decode (encode o) (TypedObject.new t)).fieldVal f = o.fieldVal f := by
  refine ⟨?_, ?_, decode_encode_fieldVal t o hty htags hfn hf htg⟩ <;>
  · simp only [Database.Set, Database.Get, newKey_ok _ _ _ hid, clientPutObject,
      clientGetObject, hreg]
    rw [alookup_ainsert_self]

/-- Closed instance of C2: writing `annUser` to the registered `User`
table and reading it back agrees on the tagged field `FirstName`. -/
theorem set_get_round_trip_witness :
    ("123" : String) ≠ "" ∧
    alookup gdb.types "User" = some userDesc ∧
    annUser.type = userDesc ∧
    (userDesc.fields.filterMap FieldDesc.tag).Nodup ∧
    (userDesc.fields.map FieldDesc.fname).Nodup ∧
    (⟨"FirstName", some "firstName", Value.str ""⟩ : FieldDesc) ∈ userDesc.fields ∧
    (FieldDesc.tag ⟨"FirstName", some "firstName", Value.str ""⟩) = some "firstName" ∧
    ((gdb.Get (gdb.Set emptyStore "User" "123" annUser).store "User" "123").val.2 = none ∧
     (gdb.Get (gdb.Set emptyStore "User" "123" annUser).store "User" "123").val.1
       = some (decode (encode annUser) (TypedObject.new userDesc)) ∧
     (decode (encode annUser) (TypedObject.new userDesc)).fieldVal
        ⟨"FirstName", some "firstName", Value.str ""⟩
       = annUser.fieldVal ⟨"FirstName", some "firstName", Value.str ""⟩) :=
  ⟨by decide, by decide, by decide, by decide, by decide, by decide, by decide,
   set_get_round_trip gdb emptyStore "User" "123" userDesc annUser
     ⟨"FirstName", some "firstName", Value.str ""⟩ "firstName"
     (by decide) (by decide) (by decide) (by decide) (by decide) (by decide)
     (by decide)⟩

/-- C3: unregistered-table guard — Get and GetMany on a table without a
registered type fail with the unregistered-table error and touch the
store not at all, while Set, Delete, Exists, GetObject and GetMap on the
same table never fail with that error. -/
theorem unregistered_table_guard (db : Database) (s : Store) (table id : String)
    (obj target : TypedObject) (ids : List String)
    (hunreg : alookup db.types table = none) (hid : id ≠ "") :
    (db.Get s table id).val = (none, some (DBError.typeNotRegistered table)) ∧
    (db.Get s table id).store = s ∧
    (db.GetMany s table ids).val = (none, some (DBError.typeNotRegistered table)) ∧
    (db.GetMany s table ids).store = s ∧
    isNotRegErr (db.Set s table id obj).val = false ∧
    isNotRegErr (db.Delete s table id).val.2 = false ∧
    isNotRegErr (db.Exists s table id).val.2 = false ∧
    isNotRegErr (db.GetObject s table id target).val.2 = false ∧
    isNotRegErr (db.GetMap s table id).val.2 = false := by
  refine ⟨?_, ?_, ?_, ?_, ?_, ?_, ?_, ?_, ?_⟩
  · simp [Database.Get, newKey_ok _ _ _ hid, hunreg]
  · simp [Database.Get, newKey_ok _ _ _ hid, hunreg]
  · simp [Database.GetMany, hunreg]
  · simp [Database.GetMany, hunreg]
  · simp [Database.Set, newKey_ok _ _ _ hid, clientPutObject, isNotRegErr]
  · simp [Database.Delete, newKey_ok _ _ _ hid, clientDelete, isNotRegErr]
  · simp [Database.Exists, newKey_ok _ _ _ hid, clientExists, isNotRegErr]
  · simp only [Database.GetObject, newKey_ok _ _ _ hid, clientGetObject]
    cases alookup s.data ⟨db.«namespace», table, id⟩ <;> rfl
  · simp only [Database.GetMap, newKey_ok _ _ _ hid, clientGet]
    cases alookup s.data ⟨db.«namespace», table, id⟩ <;> rfl

/-- Closed instance of C3 on the unregistered table `Thread`. -/
theorem unregistered_table_guard_witness :
    alookup gdb.types "Thread" = none ∧ ("123" : String) ≠ "" ∧
    ((gdb.Get emptyStore "Thread" "123").val
       = (none, some (DBError.typeNotRegistered "Thread")) ∧
     (gdb.Get emptyStore "Thread" "123").store = emptyStore ∧
     (gdb.GetMany emptyStore "Thread" ["a"]).val
       = (none, some (DBError.typeNotRegistered "Thread")) ∧
     (gdb.GetMany emptyStore "Thread" ["a"]).store = emptyStore ∧
     isNotRegErr (gdb.Set emptyStore "Thread" "123" annUser).val = false ∧
     isNotRegErr (gdb.Delete emptyStore "Thread" "123").val.2 = false ∧
     isNotRegErr (gdb.Exists emptyStore "Thread" "123").val.2 = false ∧
     isNotRegErr (gdb.GetObject emptyStore "Thread" "123" annUser).val.2 = false ∧
     isNotRegErr (gdb.GetMap emptyStore "Thread" "123").val.2 = false) :=
  ⟨by decide, by decide,
   unregistered_table_guard gdb emptyStore "Thread" "123" annUser annUser ["a"]
     (by decide) (by decide)⟩

/-- C4 counterexample: GetMany discards per-id key-construction failures
(`keys[i], _ = as.NewKey(...)` in the source). For the id list `[""]` the
key builder fails, yet the caller receives a collaborator failure after a
network call was made, never the KeyConstructionError. -/
theorem getMany_swallows_key_errors :
    NewKey "game" "User" "" = Except.error DBError.keyConstructionError ∧
    (gdb.GetMany emptyStore "User" [""]).val = (none, some DBError.storeError) ∧
    (gdb.GetMany emptyStore "User" [""]).val.2 ≠ some DBError.keyConstructionError ∧
    (gdb.GetMany emptyStore "User" [""]).store.calls = emptyStore.calls + 1 :=
  ⟨rfl, rfl, by decide, rfl⟩

/-- C4 amended: every single-id operation (Get, Set, Delete, Exists,
GetObject, GetMap) returns the KeyConstructionError of a failing id to the
caller before any collaborator call; GetMany alone discards per-id key
errors. -/
theorem single_id_ops_fail_fast_on_key_error (db : Database) (s : Store)
    (table : String) (obj target : TypedObject) :
    NewKey db.«namespace» table "" = Except.error DBError.keyConstructionError ∧
    (db.Get s table "").val = (none, some DBError.keyConstructionError) ∧
    (db.Get s table "").store = s ∧
    (db.Set s table "" obj).val = some DBError.keyConstructionError ∧
    (db.Set s table "" obj).store = s ∧
    (db.Delete s table "").val = (false, some DBError.keyConstructionError) ∧
    (db.Delete s table "").store = s ∧
    (db.Exists s table "").val = (false, some DBError.keyConstructionError) ∧
    (db.Exists s table "").store = s ∧
    (db.GetObject s table "" target).val = (target, some DBError.keyConstructionError) ∧
    (db.GetObject s table "" target).store = s ∧
    (db.GetMap s table "").val = (none, some DBError.keyConstructionError) ∧
    (db.GetMap s table "").store = s := by
  refine ⟨rfl, ?_, ?_, ?_, ?_, ?_, ?_, ?_, ?_, ?_, ?_, ?_, ?_⟩ <;>
    simp [Database.Get, Database.Set, Database.Delete, Database.Exists,
      Database.GetObject, Database.GetMap, NewKey]

/-- C7: Delete existence flag — the first Delete after a Set returns
`existed = true` without error, the second Delete of the same id returns
`existed = false` without error, and deleting a key with no stored record
reports `existed = false` through the boolean, also without error. -/
theorem delete_existence_flag (db : Database) (s s0 : Store) (table id : String)
    (o : TypedObject) (hid : id ≠ "")
    (habs : alookup s0.data ⟨db.«namespace», table, id⟩ = none) :
    (db.Delete (db.Set s table id o).store table id).val = (true, none) ∧
    (db.Delete (db.Delete (db.Set s table id o).store table id).store
        table id).val = (false, none) ∧
    (db.Delete s0 table id).val = (false, none) := by
  refine ⟨?_, ?_, ?_⟩
  · simp only [Database.Set, Database.Delete, newKey_ok _ _ _ hid,
      clientPutObject, clientDelete]
    rw [alookup_ainsert_self]
    rfl
  · simp only [Database.Set, Database.Delete, newKey_ok _ _ _ hid,
      clientPutObject, clientDelete, ainsert]
    rw [show aremove (((⟨db.«namespace», table, id⟩ : Key), encode o)
          :: aremove s.data ⟨db.«namespace», table, id⟩)
          ⟨db.«namespace», table, id⟩
        = aremove (aremove s.data ⟨db.«namespace», table, id⟩)
          ⟨db.«namespace», table, id⟩ by simp [aremove]]
    rw [alookup_aremove_self]
    rfl
  · simp only [Database.Delete, newKey_ok _ _ _ hid, clientDelete, habs]
    rfl

/-- Closed instance of C7 at the key `User/123`. -/
theorem delete_existence_flag_witness :
    ("123" : String) ≠ "" ∧
    alookup emptyStore.data ⟨gdb.«namespace», "User", "123"⟩ = none ∧
    ((gdb.Delete (gdb.Set emptyStore "User" "123" annUser).store
        "User" "123").val = (true, none) ∧
     (gdb.Delete (gdb.Delete (gdb.Set emptyStore "User" "123" annUser).store
        "User" "123").store "User" "123").val = (false, none) ∧
     (gdb.Delete emptyStore "User" "123").val = (false, none)) :=
  ⟨by decide, by decide,
   delete_existence_flag gdb emptyStore emptyStore "User" "123" annUser
     (by decide) (by decide)⟩

theorem zip_replicate_map {α β γ δ : Type} (l : List α) (kf : α → β) (z : γ)
    (g : β × γ → δ) :
    ((l.map kf).zip (List.replicate l.length z)).map g
      = l.map (fun a => g (kf a, z)) := by
  induction l with
  | nil => rfl
  | cons a l ih =>
    simp only [List.map_cons, List.length_cons, List.replicate_succ,
      List.zip_cons_cons]
    rw [ih]

theorem getMany_eq_of_all_ok (db : Database) (s : Store) (table : String)
    (t : TypeDescriptor) (ids : List String)
    (hreg : alookup db.types table = some t) (hne : ids ≠ [])
    (hall : (ids.map (fun id => (NewKey db.«namespace» table id).toOption)).all
      Option.isSome = true) :
    db.GetMany s table ids
      = ⟨db, s.bump, (some (ids.map (batchItem db.«namespace» table s t)), none)⟩ := by
  unfold Database.GetMany
  simp only [hreg]
  rw [if_neg (show ¬ids.length = 0 by simpa using hne)]
  simp only [clientBatchGetObjects]
  rw [if_pos hall]
  rw [zip_replicate_map]
  rfl

theorem getMany_eq_of_bad_key (db : Database) (s : Store) (table : String)
    (t : TypeDescriptor) (ids : List String)
    (hreg : alookup db.types table = some t) (hne : ids ≠ [])
    (hall : ¬((ids.map (fun id => (NewKey db.«namespace» table id).toOption)).all
      Option.isSome = true)) :
    db.GetMany s table ids = ⟨db, s.bump, (none, some DBError.storeError)⟩ := by
  unfold Database.GetMany
  simp only [hreg]
  rw [if_neg (show ¬ids.length = 0 by simpa using hne)]
  simp only [clientBatchGetObjects]
  rw [if_neg hall]

/-- C5: GetMany order and length — on a registered table, the empty id
list yields an empty result with the store untouched (no collaborator
call); whenever the call fails the result is nil (no partial result); and
whenever a result is returned it is exactly the per-id batch outcome of
the input ids, in input order and of equal length. -/
theorem getMany_order_length (db : Database) (s : Store) (table : String)
    (t : TypeDescriptor) (ids : List String)
    (hreg : alookup db.types table = some t) :
    (db.GetMany s table []).val = (some [], none) ∧
    (db.GetMany s table []).store = s ∧
    ((db.GetMany s table ids).val.1 = none →
      ((db.GetMany s table ids).val.2).isSome = true) ∧
    ((db.GetMany s table ids).val.1 ≠ none →
      (db.GetMany s table ids).val
        = (some (ids.map (batchItem db.«namespace» table s t)), none)) ∧
    (ids.map (batchItem db.«namespace» table s t)).length = ids.length := by
  refine ⟨?_, ?_, ?_, ?_, List.length_map _ _⟩
  · simp [Database.GetMany, hreg]
  · simp [Database.GetMany, hreg]
  · intro h1
    cases ids with
    | nil => simp [Database.GetMany, hreg] at h1
    | cons a l =>
      by_cases hall : (((a :: l).map
          (fun id => (NewKey db.«namespace» table id).toOption)).all
          Option.isSome) = true
      · rw [getMany_eq_of_all_ok db s table t _ hreg (by simp) hall] at h1
        simp at h1
      · rw [getMany_eq_of_bad_key db s table t _ hreg (by simp) hall]
        rfl
  · intro h1
    cases ids with
    | nil => simp [Database.GetMany, hreg]
    | cons a l =>
      by_cases hall : (((a :: l).map
          (fun id => (NewKey db.«namespace» table id).toOption)).all
          Option.isSome) = true
      · rw [getMany_eq_of_all_ok db s table t _ hreg (by simp) hall]
      · exfalso
        apply h1
        rw [getMany_eq_of_bad_key db s table t _ hreg (by simp) hall]

/-- Closed instance of C5 on the registered `User` table with one stored
and one absent id. -/
theorem getMany_order_length_witness :
    alookup gdb.types "User" = some userDesc ∧
    ((gdb.GetMany (gdb.Set emptyStore "User" "123" annUser).store
        "User" []).val = (some [], none) ∧
     (gdb.GetMany (gdb.Set emptyStore "User" "123" annUser).store
        "User" []).store = (gdb.Set emptyStore "User" "123" annUser).store ∧
     ((gdb.GetMany (gdb.Set emptyStore "User" "123" annUser).store
        "User" ["123", "456"]).val.1 = none →
       ((gdb.GetMany (gdb.Set emptyStore "User" "123" annUser).store
        "User" ["123", "456"]).val.2).isSome = true) ∧
     ((gdb.GetMany (gdb.Set emptyStore "User" "123" annUser).store
        "User" ["123", "456"]).val.1 ≠ none →
       (gdb.GetMany (gdb.Set emptyStore "User" "123" annUser).store
        "User" ["123", "456"]).val
         = (some (["123", "456"].map (batchItem gdb.«namespace» "User"
             (gdb.Set emptyStore "User" "123" annUser).store userDesc)), none)) ∧
     (["123", "456"].map (batchItem gdb.«namespace» "User"
        (gdb.Set emptyStore "User" "123" annUser).store userDesc)).length
       = (["123", "456"] : List String).length) :=
  ⟨by decide,
   getMany_order_length gdb (gdb.Set emptyStore "User" "123" annUser).store
     "User" userDesc ["123", "456"] (by decide)⟩

theorem all_eq_none (db : Database) (s : Store) (table : String) :
    db.All s table = none := by
  unfold Database.All
  cases alookup db.types table with
  | none => rfl
  | some t => rfl

/-- C6: All never returns the promised stream — the source hands the
registered struct type (or a nil type for an unregistered table) to
`reflect.MakeChan`, which requires a channel type, so every call of All
panics instead of producing a stream of decoded objects; shown at the
concrete registered table `User` and for all inputs. -/
theorem all_never_yields_stream :
    gdb.All emptyStore "User" = none ∧
    alookup gdb.types "User" = some userDesc ∧
    reflectMakeChan ((alookup gdb.types "User").map ReflectType.structT) = none ∧
    (∀ (db : Database) (s : Store) (table : String), db.All s table = none) :=
  ⟨all_eq_none gdb emptyStore "User", by decide, by decide, all_eq_none⟩

/-- C8: construction-time connectivity failure is not the sole panic —
NewDatabase indeed panics when the collaborator connection fails, but All
also panics on every call (inside `reflect.MakeChan`), here on the
registered table `Post` of a successfully constructed database. -/
theorem panic_not_limited_to_construction :
    NewDatabase false "game" [userDesc, postDesc] = none ∧
    NewDatabase true "game" [userDesc, postDesc] = some gdb ∧
    gdb.All emptyStore "Post" = none :=
  ⟨rfl, rfl, all_eq_none gdb emptyStore "Post"⟩

theorem get_db_eq (db : Database) (s : Store) (table id : String) :
    (db.Get s table id).db = db := by
  unfold Database.Get
  cases NewKey db.«namespace» table id with
  | error e => rfl
  | ok pk =>
    cases alookup db.types table with
    | none => rfl
    | some t => rfl

theorem set_db_eq (db : Database) (s : Store) (table id : String)
    (obj : TypedObject) : (db.Set s table id obj).db = db := by
  unfold Database.Set
  cases NewKey db.«namespace» table id with
  | error e => rfl
  | ok pk => rfl

theorem delete_db_eq (db : Database) (s : Store) (table id : String) :
    (db.Delete s table id).db = db := by
  unfold Database.Delete
  cases NewKey db.«namespace» table id with
  | error e => rfl
  | ok pk => rfl

theorem exists_db_eq (db : Database) (s : Store) (table id : String) :
    (db.Exists s table id).db = db := by
  unfold Database.Exists
  cases NewKey db.«namespace» table id with
  | error e => rfl
  | ok pk => rfl

theorem getObject_db_eq (db : Database) (s : Store) (table id : String)
    (target : TypedObject) : (db.GetObject s table id target).db = db := by
  unfold Database.GetObject
  cases NewKey db.«namespace» table id with
  | error e => rfl
  | ok pk => rfl

theorem getMap_db_eq (db : Database) (s : Store) (table id : String) :
    (db.GetMap s table id).db = db := by
  unfold Database.GetMap
  cases NewKey db.«namespace» table id with
  | error e => rfl
  | ok pk =>
    simp only [clientGet]
    cases alookup s.data pk <;> rfl

theorem getMany_db_eq (db : Database) (s : Store) (table : String)
    (ids : List String) : (db.GetMany s table ids).db = db := by
  cases halo : alookup db.types table with
  | none => simp [Database.GetMany, halo]
  | some t =>
    by_cases h0 : ids.length = 0
    · simp [Database.GetMany, halo, h0]
    · simp only [Database.GetMany, halo, if_neg h0, clientBatchGetObjects]
      by_cases hall : ((ids.map
          (fun id => (NewKey db.«namespace» table id).toOption)).all
          Option.isSome) = true
      · rw [if_pos hall]
      · rw [if_neg hall]

/-- C9: the registry and namespace are fixed after construction — every
public operation returns the database receiver unchanged (All never
returns at all, so it too leaves the registry untouched), and Type, Types
and Namespace are pure registry reads that leave the collaborator store
untouched (no network call). -/
theorem registry_namespace_fixed (db : Database) (s : Store) (table id : String)
    (obj target : TypedObject) (ids : List String) (td : TypeDescriptor) :
    (db.Get s table id).db = db ∧
    (db.Set s table id obj).db = db ∧
    (db.Delete s table id).db = db ∧
    (db.Exists s table id).db = db ∧
    (db.Scan s table td).db = db ∧
    db.All s table = none ∧
    (db.GetObject s table id target).db = db ∧
    (db.GetMap s table id).db = db ∧
    (db.GetMany s table ids).db = db ∧
    (db.DeleteTable s table).db = db ∧
    db.«Type» s table = ⟨db, s, alookup db.types table⟩ ∧
    db.Types s = ⟨db, s, db.types⟩ ∧
    db.Namespace s = ⟨db, s, db.«namespace»⟩ :=
  ⟨get_db_eq db s table id, set_db_eq db s table id obj, delete_db_eq db s table id,
   exists_db_eq db s table id, rfl, all_eq_none db s table,
   getObject_db_eq db s table id target, getMap_db_eq db s table id,
   getMany_db_eq db s table ids, rfl, rfl, rfl, rfl⟩

/-- C10: when Get on a registered table hits a collaborator failure (an
absent record), it still returns the freshly allocated zero instance of
the registered type alongside the error; GetMap and GetMany instead
return a nil result whenever they return an error. -/
theorem get_fresh_instance_on_error (db : Database) (s s2 s3 : Store)
    (table table2 table3 id id2 : String) (ids3 : List String)
    (t : TypeDescriptor) (hid : id ≠ "")
    (hreg : alookup db.types table = some t)
    (habs : alookup s.data ⟨db.«namespace», table, id⟩ = none)
    (hmapErr : ((db.GetMap s2 table2 id2).val.2).isSome = true)
    (hmanyErr : ((db.GetMany s3 table3 ids3).val.2).isSome = true) :
    (db.Get s table id).val
      = (some (TypedObject.new t), some DBError.storeNotFound) ∧
    (db.GetMap s2 table2 id2).val.1 = none ∧
    (db.GetMany s3 table3 ids3).val.1 = none := by
  refine ⟨?_, ?_, ?_⟩
  · simp only [Database.Get, newKey_ok _ _ _ hid, hreg, clientGetObject, habs]
  · by_cases h2 : id2 = ""
    · subst h2
      simp [Database.GetMap, NewKey]
    · revert hmapErr
      simp only [Database.GetMap, newKey_ok _ _ _ h2, clientGet]
      cases alookup s2.data ⟨db.«namespace», table2, id2⟩ with
      | none => intro _; rfl
      | some rec => intro h; simp at h
  · revert hmanyErr
    cases halo : alookup db.types table3 with
    | none => simp [Database.GetMany, halo]
    | some t3 =>
      by_cases h0 : ids3.length = 0
      · simp [Database.GetMany, halo, h0]
      · simp only [Database.GetMany, halo, if_neg h0, clientBatchGetObjects]
        by_cases hall : ((ids3.map
            (fun id => (NewKey db.«namespace» table3 id).toOption)).all
            Option.isSome) = true
        · rw [if_pos hall]
          intro h
          simp at h
        · rw [if_neg hall]
          intro _
          rfl

/-- Closed instance of C10: Get of an absent record on the registered
`User` table returns the zero user with the not-found error; GetMap of
the same absent record and GetMany on an unregistered table both fail
with a nil result. -/
theorem get_fresh_instance_on_error_witness :
    ("123" : String) ≠ "" ∧
    alookup gdb.types "User" = some userDesc ∧
    alookup emptyStore.data ⟨gdb.«namespace», "User", "123"⟩ = none ∧
    ((gdb.GetMap emptyStore "User" "123").val.2).isSome = true ∧
    ((gdb.GetMany emptyStore "Thread" ["a"]).val.2).isSome = true ∧
    ((gdb.Get emptyStore "User" "123").val
       = (some (TypedObject.new userDesc), some DBError.storeNotFound) ∧
     (gdb.GetMap emptyStore "User" "123").val.1 = none ∧
     (gdb.GetMany emptyStore "Thread" ["a"]).val.1 = none) :=
  ⟨by decide, by decide, by decide, by decide, by decide,
   get_fresh_instance_on_error gdb emptyStore emptyStore emptyStore
     "User" "User" "Thread" "123" "123" ["a"] userDesc
     (by decide) (by decide) (by decide) (by decide) (by decide)⟩

end Aerospike
